import Mathlib

/-!
Shallow embedding of the spam_news frame-analysis pipeline
(notebooks/demo_analysis.ipynb and the configs), with theorems checking
the specification's claims about demographic resolution, frame
thresholding and the analysis loop.
-/

namespace SpamNews

/-- Python `\w` word character (ASCII view, the text is lower-cased ASCII):
letters, digits and underscore. Used for the `\b` boundaries of the
demographic regexes. -/
def isWordChar (c : Char) : Bool := c.isAlphanum || c == '_'

/-- Match `pat` literally at the head of `text`; on success return the rest
of the text after the match. -/
def matchAt : List Char → List Char → Option (List Char)
  | [], t => some t
  | _ :: _, [] => none
  | p :: ps, c :: ts => if p == c then matchAt ps ts else none

/-- `\b pat \b` matches at the current position: the pattern occurs here,
the previous character (tracked in `prevWord`) is not a word character, and
the character following the match (if any) is not a word character. All
alternatives in `demographic_patterns` begin and end with letters, so this
is exactly the boundary semantics of the regex at their ends. -/
def boundedHere (pat text : List Char) (prevWord : Bool) : Bool :=
  match matchAt pat text with
  | none => false
  | some rest =>
      !prevWord &&
        (match rest with
         | [] => true
         | c :: _ => !isWordChar c)

/-- Scan the text for a word-bounded occurrence of `pat`, carrying whether
the previous character was a word character (start of string counts as a
boundary). -/
def searchFrom (pat : List Char) : Bool → List Char → Bool
  | prevWord, [] => boundedHere pat [] prevWord
  | prevWord, c :: rest =>
      boundedHere pat (c :: rest) prevWord || searchFrom pat (isWordChar c) rest

/-- `re.search(r"\b(a1|a2|...)\b", text)` is truthy iff some alternative has
a word-bounded occurrence in the text. -/
def regexSearch (alts : List String) (text : List Char) : Bool :=
  alts.any (fun a => searchFrom a.data false text)

/-- Python `text.lower()` on the article text, viewed as a character list. -/
def pyLower (s : String) : List Char := s.data.map Char.toLower

/-- The `demographic_patterns` dict of demo_analysis.ipynb, in insertion
order; each regex `\b(x|y|...)\b` is recorded as its list of alternatives. -/
def demographic_patterns : List (String × List String) :=
  [("women", ["women", "woman", "female", "females"]),
   ("men",   ["men", "man", "male", "males"]),
   ("white", ["white", "caucasian"]),
   ("black", ["black", "african american"]),
   ("poc",   ["people of color", "hispanic", "latino", "latina", "asian"])]

/-- `detect_demographics` from demo_analysis.ipynb: lower the text, collect
the keys whose pattern matches, then append `women_of_color` when `women`
and (`black` or `poc`) were found, and `white_men` when `men` and `white`
were found. -/
def detect_demographics (text : String) : List String :=
  let text_lower := pyLower text
  let found := (demographic_patterns.filter
      (fun p => regexSearch p.2 text_lower)).map Prod.fst
  let found := if found.contains "women" &&
      (found.contains "black" || found.contains "poc")
    then found ++ ["women_of_color"] else found
  let found := if found.contains "men" && found.contains "white"
    then found ++ ["white_men"] else found
  found

/-- The `women` pattern of `demographic_patterns` matches the text. -/
def womenMatch (t : String) : Bool :=
  regexSearch ["women", "woman", "female", "females"] (pyLower t)

/-- The `men` pattern of `demographic_patterns` matches the text. -/
def menMatch (t : String) : Bool :=
  regexSearch ["men", "man", "male", "males"] (pyLower t)

/-- The `white` pattern of `demographic_patterns` matches the text. -/
def whiteMatch (t : String) : Bool :=
  regexSearch ["white", "caucasian"] (pyLower t)

/-- The `black` pattern of `demographic_patterns` matches the text. -/
def blackMatch (t : String) : Bool :=
  regexSearch ["black", "african american"] (pyLower t)

/-- The `poc` pattern of `demographic_patterns` matches the text. -/
def pocMatch (t : String) : Bool :=
  regexSearch ["people of color", "hispanic", "latino", "latina", "asian"] (pyLower t)

/-- The candidate frame labels handed to the zero-shot classifier in
demo_analysis.ipynb. -/
def frame_labels : List String :=
  ["underrepresentation in leadership",
   "overrepresentation in leadership",
   "obstacles to leadership",
   "successes in leadership"]

/-- Python `label.split()[0]`: first whitespace-separated word of a label. -/
def firstWord (s : String) : String :=
  ⟨(s.data.dropWhile (fun c => c.isWhitespace)).takeWhile
      (fun c => !c.isWhitespace)⟩

/-- `zero_shot.confidence_threshold` from model_config.yaml, the value that
the `score > 0.5` comparison in the notebook hard-codes. Scores are
modelled as rationals in [0,1]. -/
def confidence_threshold : ℚ := 1/2

/-- The `detected_frames` comprehension of the analysis loop: keep the
(label, score) pairs whose score strictly exceeds 0.5, shortening each
label to its first word. -/
def detected_frames (frame_result : List (String × ℚ)) : List (String × ℚ) :=
  (frame_result.filter (fun p => decide (confidence_threshold < p.2))).map
    (fun p => (firstWord p.1, p.2))

/-- An input article record: identifier, title and full text, the fields
the analysis loop reads. -/
structure Article where
  article_id : String
  title : String
  content : String

/-- One entry of the `results` list built by the loop. -/
structure AnalysisResult where
  article_id : String
  title : String
  detected_frames : List (String × ℚ)
  demographics : List String
deriving DecidableEq

/-- The external classifier call: on success a (label, score) list, and
`Except.error` when the oracle is unavailable (a raised exception in the
notebook). -/
def analyze_article (classifier : String → Except Unit (List (String × ℚ)))
    (a : Article) : Except Unit AnalysisResult :=
  match classifier a.content with
  | .error e => .error e
  | .ok frame_result =>
      .ok ⟨a.article_id, a.title, detected_frames frame_result,
        detect_demographics a.content⟩

/-- The analyze-all-articles loop of demo_analysis.ipynb: process the
articles in order; an exception from the classifier propagates out of the
loop, aborting the run with no `results` list produced. -/
def analyze_all (classifier : String → Except Unit (List (String × ℚ))) :
    List Article → Except Unit (List AnalysisResult)
  | [] => .ok []
  | a :: rest =>
      match analyze_article classifier a with
      | .error e => .error e
      | .ok r =>
          match analyze_all classifier rest with
          | .error e => .error e
          | .ok rs => .ok (r :: rs)

/-- Modelled from the spec: the per-unit join of the ExemplarCounter,
which is absent from the repository code (the notebook lists exemplar
counting as future work). For each frame label detected in the unit and
each demographic target detected in the same unit, emit one
(label, target) exemplar. -/
def exemplars (frames : List String) (demos : List String) :
    List (String × String) :=
  frames.flatMap (fun f => demos.map (fun d => (f, d)))

/-- `quality.min_content_length` from data_config.yaml. -/
def min_content_length : ℕ := 100

/-- A per-article tally: counts keyed by (frame, demographic). -/
def ArticleTally : Type := List ((String × String) × ℕ)

/-- Outcome of a corpus run: the tallied articles and the skipped-articles
report. -/
structure CorpusRun where
  processed : List (Article × ArticleTally)
  skipped : List Article

/-- Modelled from the spec: corpus processing with the minimum
content-length validation of the Segmenter, which is absent from the
repository code (only data_config.yaml declares the limit). An article
whose content is shorter than `min_content_length` fails validation and
goes to the skipped report; the remaining articles are tallied and
processing continues. -/
def process_corpus (tallyOf : Article → ArticleTally) :
    List Article → CorpusRun
  | [] => ⟨[], []⟩
  | a :: rest =>
      let r := process_corpus tallyOf rest
      if a.content.length < min_content_length then
        ⟨r.processed, a :: r.skipped⟩
      else
        ⟨(a, tallyOf a) :: r.processed, r.skipped⟩

/-- Modelled from the spec: the AgreementEvaluator consumes paired
(ArticleTally, HumanCoding) sequences, so only articles in the processed
list of the run enter AgreementResult computation. -/
def agreement_articles (run : CorpusRun) : List Article :=
  run.processed.map Prod.fst

/-- A classification oracle stub that is unavailable (raises) exactly on
one article text and otherwise returns a fixed high obstacles score. -/
def failing_oracle : String → Except Unit (List (String × ℚ)) :=
  fun content =>
    if content = "the oracle times out on this article" then .error ()
    else .ok [("obstacles to leadership", 9/10)]

/-- A fixed deterministic classifier stub standing in for the lexical
strategy in the determinism check. -/
def lexical_stub : String → Except Unit (List (String × ℚ)) :=
  fun _ => .ok [("obstacles to leadership", 7/10)]

/-- The worked example text of the spec. -/
def ceiling_text : String :=
  "White women are up against a glass ceiling, but women of color are up against a concrete ceiling"

/-- A concrete article below the configured minimum content length. -/
def tiny_article : Article := ⟨"a-short", "short article", "too short"⟩

/-- A concrete article above the configured minimum content length. -/
def long_article : Article :=
  ⟨"a-long", "long article",
   "Black women in leadership face a concrete ceiling according to this report on corporate boards in America."⟩

example : detect_demographics "hello world" = [] := by decide

example : detect_demographics "women of color" = ["women"] := by decide

example : detect_demographics "black women lead" =
    ["women", "black", "women_of_color"] := by decide

example : detect_demographics "white men and white women" =
    ["women", "men", "white", "white_men"] := by decide

example :
    detected_frames [("obstacles to leadership", 7/10),
      ("successes in leadership", 1/2)] = [("obstacles", 7/10)] := by
  norm_num [detected_frames, confidence_threshold, firstWord]
  decide

/-- Closed form of `detect_demographics` in terms of the five pattern
match results, obtained by unfolding the filter over the literal pattern
list and the two composite rules. -/
theorem detect_demographics_eq (t : String) :
    detect_demographics t =
      (if womenMatch t then ["women"] else []) ++
      (if menMatch t then ["men"] else []) ++
      (if whiteMatch t then ["white"] else []) ++
      (if blackMatch t then ["black"] else []) ++
      (if pocMatch t then ["poc"] else []) ++
      (if womenMatch t && (blackMatch t || pocMatch t)
        then ["women_of_color"] else []) ++
      (if menMatch t && whiteMatch t then ["white_men"] else []) := by
  unfold detect_demographics womenMatch menMatch whiteMatch blackMatch pocMatch
  cases h1 : regexSearch ["women", "woman", "female", "females"] (pyLower t) <;>
  cases h2 : regexSearch ["men", "man", "male", "males"] (pyLower t) <;>
  cases h3 : regexSearch ["white", "caucasian"] (pyLower t) <;>
  cases h4 : regexSearch ["black", "african american"] (pyLower t) <;>
  cases h5 : regexSearch ["people of color", "hispanic", "latino", "latina", "asian"]
      (pyLower t) <;>
  simp [demographic_patterns, List.filter_cons, h1, h2, h3, h4, h5]

/-- C10: for every input string, `detect_demographics` returns a
duplicate-free list over the fixed seven-element vocabulary, containing
`women_of_color` only together with `women` and one of `black`, `poc`, and
containing `white_men` only together with both `men` and `white`. -/
theorem detect_demographics_wellformed (text : String) :
    (detect_demographics text).Nodup ∧
    (∀ c ∈ detect_demographics text,
      c ∈ ["women", "men", "white", "black", "poc", "women_of_color",
        "white_men"]) ∧
    ("women_of_color" ∈ detect_demographics text →
      "women" ∈ detect_demographics text ∧
        ("black" ∈ detect_demographics text ∨
          "poc" ∈ detect_demographics text)) ∧
    ("white_men" ∈ detect_demographics text →
      "men" ∈ detect_demographics text ∧
        "white" ∈ detect_demographics text) := by
  rw [detect_demographics_eq]
  cases h1 : womenMatch text <;> cases h2 : menMatch text <;>
  cases h3 : whiteMatch text <;> cases h4 : blackMatch text <;>
  cases h5 : pocMatch text <;> simp

/-- Witness for C10 at a concrete input: the composite occurrence
condition discharged on a text matching `women` and `black`. -/
theorem detect_demographics_wellformed_witness :
    "women" ∈ detect_demographics "black women lead" ∧
      ("black" ∈ detect_demographics "black women lead" ∨
        "poc" ∈ detect_demographics "black women lead") :=
  (detect_demographics_wellformed "black women lead").2.2.1 (by decide)

/-- C1 counterexample: a unit with a `women` term and a `white` term does
not yield `white_women`, and a unit with a `men` term and a
people-of-color term does not yield `men_of_color`; the resolver never
produces those two composites. -/
theorem composite_lattice_cex :
    "white_women" ∉ detect_demographics "white women hold the top jobs" ∧
    "men_of_color" ∉ detect_demographics "hispanic men hold the top jobs" := by
  decide

/-- C1 (amended): the resolver produces only two of the four composite
targets: `women_of_color` exactly when the `women` pattern and one of the
`black` or `poc` patterns match, and `white_men` exactly when the `men`
and `white` patterns match; `white_women` and `men_of_color` are never
produced, so women together with white, and men together with a
people-of-color term, yield no composite. -/
theorem composite_lattice_characterization (text : String) :
    "white_women" ∉ detect_demographics text ∧
    "men_of_color" ∉ detect_demographics text ∧
    ("women_of_color" ∈ detect_demographics text ↔
      (womenMatch text = true ∧
        (blackMatch text = true ∨ pocMatch text = true))) ∧
    ("white_men" ∈ detect_demographics text ↔
      (menMatch text = true ∧ whiteMatch text = true)) := by
  rw [detect_demographics_eq]
  cases h1 : womenMatch text <;> cases h2 : menMatch text <;>
  cases h3 : whiteMatch text <;> cases h4 : blackMatch text <;>
  cases h5 : pocMatch text <;> simp

/-- Witness for the amended C1 at a concrete input: the composite
membership equivalence discharged on a text matching `men` and `white`. -/
theorem composite_lattice_characterization_witness :
    "white_men" ∈ detect_demographics "white men run the firm" :=
  (composite_lattice_characterization "white men run the firm").2.2.2.mpr
    (by decide)

/-- C2 counterexample: on a unit matching no gender and no race-ethnicity
keyword, `detect_demographics` returns the empty list, not the singleton
`unspecified`. -/
theorem unspecified_fallback_cex :
    detect_demographics "hello world" = [] ∧
    "unspecified" ∉ detect_demographics "hello world" := by decide

/-- C2 (amended): when no gender and no race-ethnicity pattern matches, the
resolver returns the empty list; the string `unspecified` is never an
element of the result for any input. -/
theorem no_keyword_empty_result (text : String)
    (hw : womenMatch text = false) (hm : menMatch text = false)
    (hwh : whiteMatch text = false) (hb : blackMatch text = false)
    (hp : pocMatch text = false) :
    detect_demographics text = [] ∧
    ∀ t : String, "unspecified" ∉ detect_demographics t := by
  refine ⟨?_, ?_⟩
  · rw [detect_demographics_eq]
    simp [hw, hm, hwh, hb, hp]
  · intro t
    rw [detect_demographics_eq]
    cases h1 : womenMatch t <;> cases h2 : menMatch t <;>
    cases h3 : whiteMatch t <;> cases h4 : blackMatch t <;>
    cases h5 : pocMatch t <;> simp

/-- Witness for the amended C2: the no-match hypotheses discharged on a
concrete keyword-free text. -/
theorem no_keyword_empty_result_witness :
    detect_demographics "hello world" = [] ∧
    ∀ t : String, "unspecified" ∉ detect_demographics t :=
  no_keyword_empty_result "hello world" (by decide) (by decide) (by decide)
    (by decide) (by decide)

/-- C3 counterexample: the configured explicit intersectional phrase
`women of color` does not receive the composite target it names; the
resolver returns only the single-axis `women` for it. -/
theorem intersectional_phrase_cex :
    detect_demographics "women of color" = ["women"] ∧
    "women_of_color" ∉ detect_demographics "women of color" := by decide

/-- C3 (amended): the resolver has no explicit-phrase rule and ignores the
`demographics.intersectional` phrases of frame_definitions.yaml; a
composite arises only from two independently matched single-axis patterns,
so `women of color` yields just `women`, `men of color` yields just `men`,
while `black women` and `white men` get their composites through the
single-axis inference rules. -/
theorem intersectional_phrases_resolved_by_inference :
    detect_demographics "women of color" = ["women"] ∧
    detect_demographics "men of color" = ["men"] ∧
    detect_demographics "black women" = ["women", "black", "women_of_color"] ∧
    detect_demographics "white men" = ["men", "white", "white_men"] := by
  decide

/-- C7: a unit in which no gender and no race-ethnicity pattern matches
gets zero composite targets (its result is empty), and each composite is
assigned only when a gender pattern and a race-ethnicity pattern both
match the same unit. -/
theorem explicit_only_composites (text : String) :
    ((womenMatch text || menMatch text || whiteMatch text ||
        blackMatch text || pocMatch text) = false →
      detect_demographics text = []) ∧
    ("women_of_color" ∈ detect_demographics text →
      womenMatch text = true ∧
        (blackMatch text = true ∨ pocMatch text = true)) ∧
    ("white_men" ∈ detect_demographics text →
      menMatch text = true ∧ whiteMatch text = true) := by
  rw [detect_demographics_eq]
  cases h1 : womenMatch text <;> cases h2 : menMatch text <;>
  cases h3 : whiteMatch text <;> cases h4 : blackMatch text <;>
  cases h5 : pocMatch text <;> simp

/-- Witness for C7: the no-keyword hypothesis discharged on a concrete
keyword-free text. -/
theorem explicit_only_composites_witness :
    detect_demographics "the board met on tuesday" = [] :=
  (explicit_only_composites "the board met on tuesday").1 (by decide)

/-- C4 counterexample: on the worked example text, the resolver detects
neither `white_women` nor `women_of_color`, so no join with the obstacles
frame can emit the two exemplars the claim requires. -/
theorem ceiling_example_cex :
    "white_women" ∉ detect_demographics ceiling_text ∧
    "women_of_color" ∉ detect_demographics ceiling_text ∧
    ("obstacles", "white_women") ∉
      exemplars ["obstacles"] (detect_demographics ceiling_text) ∧
    ("obstacles", "women_of_color") ∉
      exemplars ["obstacles"] (detect_demographics ceiling_text) := by decide

/-- C4 (amended): on the worked example text the resolver returns only the
single-axis targets `women` and `white` (the `poc` pattern needs the full
phrase `people of color`, and `white_women` is never produced), so with
the obstacles frame detected the join emits exactly the two exemplars
(obstacles, women) and (obstacles, white). -/
theorem ceiling_example_exemplars :
    detect_demographics ceiling_text = ["women", "white"] ∧
    exemplars ["obstacles"] (detect_demographics ceiling_text) =
      [("obstacles", "women"), ("obstacles", "white")] := by decide

/-- C5 counterexample: with an oracle that fails on the second of two
articles, the analyze-all loop returns an error: no results list is
produced at all — there is no undetermined per-frame value and even the
first article contributes nothing, instead of only the failed unit being
excluded. -/
theorem oracle_failure_cex :
    analyze_all failing_oracle
      [⟨"a1", "first", "black women lead"⟩,
       ⟨"a2", "second", "the oracle times out on this article"⟩] =
      .error () := by rfl

/-- C5 (amended): when the classification oracle fails on any article of
the corpus, the analyze-all loop propagates the exception and the whole
run aborts with an error; no per-frame undetermined value exists and no
results are emitted for any article. -/
theorem oracle_failure_aborts
    (classifier : String → Except Unit (List (String × ℚ)))
    (articles : List Article) (a : Article) (ha : a ∈ articles)
    (hfail : classifier a.content = .error ()) :
    analyze_all classifier articles = .error () := by
  induction articles with
  | nil => cases ha
  | cons b rest ih =>
      rcases List.mem_cons.mp ha with h | h
      · subst h
        unfold analyze_all analyze_article
        rw [hfail]
      · unfold analyze_all
        cases hb : analyze_article classifier b with
        | error e => cases e; rfl
        | ok r => rw [ih h]

/-- Witness for the amended C5: the failing-oracle hypothesis discharged
on a concrete one-article corpus. -/
theorem oracle_failure_aborts_witness :
    analyze_all failing_oracle
      [⟨"a2", "second", "the oracle times out on this article"⟩] =
      .error () :=
  oracle_failure_aborts failing_oracle _
    ⟨"a2", "second", "the oracle times out on this article"⟩
    (List.mem_singleton.mpr rfl) rfl

/-- C6: an entry of the classifier result enters `detected_frames` (with
its label shortened to the first word) exactly when its score strictly
exceeds the configured confidence threshold, whose value is 0.5; a score
equal to 0.5 therefore never counts and a score above 0.5 always does. -/
theorem frame_threshold_strict (frame_result : List (String × ℚ))
    (l : String) (s : ℚ) (h : (l, s) ∈ frame_result) :
    (confidence_threshold < s ↔
      (firstWord l, s) ∈ detected_frames frame_result) ∧
    confidence_threshold = 1/2 := by
  refine ⟨⟨fun hs => ?_, fun hmem => ?_⟩, rfl⟩
  · exact List.mem_map.mpr
      ⟨(l, s), List.mem_filter.mpr ⟨h, by simpa using hs⟩, rfl⟩
  · rcases List.mem_map.mp hmem with ⟨p, hp, hpe⟩
    rcases List.mem_filter.mp hp with ⟨_, hlt⟩
    have hs2 : p.2 = s := congrArg Prod.snd hpe
    rw [← hs2]
    simpa using hlt

/-- Witness for C6: the membership hypothesis discharged on a concrete
classifier result with one score above and one score at the threshold. -/
theorem frame_threshold_strict_witness :
    (firstWord "obstacles to leadership", (7:ℚ)/10) ∈ detected_frames
      [("obstacles to leadership", 7/10),
       ("successes in leadership", 1/2)] :=
  ((frame_threshold_strict
      [("obstacles to leadership", 7/10), ("successes in leadership", 1/2)]
      "obstacles to leadership" (7/10)
      (List.mem_cons_self _ _)).1).mp
    (by norm_num [confidence_threshold])

/-- Every article in the processed list of a corpus run passed the
minimum content-length validation. -/
theorem process_corpus_processed_long (tallyOf : Article → ArticleTally) :
    ∀ (corpus : List Article),
      ∀ p ∈ (process_corpus tallyOf corpus).processed,
        ¬ p.1.content.length < min_content_length := by
  intro corpus
  induction corpus with
  | nil => intro p hp; cases hp
  | cons a rest ih =>
      intro p hp
      by_cases hlen : a.content.length < min_content_length
      · exact ih p (by simpa [process_corpus, hlen] using hp)
      · rcases List.mem_cons.mp (by simpa [process_corpus, hlen] using hp)
          with h | h
        · subst h; exact hlen
        · exact ih p h

/-- A short article found in the corpus lands in the skipped report. -/
theorem process_corpus_skips_short (tallyOf : Article → ArticleTally)
    (a : Article) (hshort : a.content.length < min_content_length) :
    ∀ corpus : List Article, a ∈ corpus →
      a ∈ (process_corpus tallyOf corpus).skipped := by
  intro corpus
  induction corpus with
  | nil => intro ha; cases ha
  | cons c rest ih =>
      intro ha
      rcases List.mem_cons.mp ha with h | h
      · subst h; simp [process_corpus, hshort]
      · by_cases hlen : c.content.length < min_content_length <;>
          simp [process_corpus, hlen, ih h]

/-- A sufficiently long article found in the corpus is tallied. -/
theorem process_corpus_keeps_long (tallyOf : Article → ArticleTally)
    (b : Article) (hlong : ¬ b.content.length < min_content_length) :
    ∀ corpus : List Article, b ∈ corpus →
      (b, tallyOf b) ∈ (process_corpus tallyOf corpus).processed := by
  intro corpus
  induction corpus with
  | nil => intro hb; cases hb
  | cons c rest ih =>
      intro hb
      rcases List.mem_cons.mp hb with h | h
      · subst h; simp [process_corpus, hlong]
      · by_cases hlen : c.content.length < min_content_length <;>
          simp [process_corpus, hlen, ih h]

/-- C8: an article whose content is below the configured minimum length is
skipped by corpus processing — it appears in the skipped-articles report,
never in the processed tallies, and not among the articles entering
AgreementResult computation — while every article of sufficient length is
still tallied (processing continues). -/
theorem short_article_skipped (tallyOf : Article → ArticleTally)
    (corpus : List Article) (a : Article) (ha : a ∈ corpus)
    (hshort : a.content.length < min_content_length) :
    a ∈ (process_corpus tallyOf corpus).skipped ∧
    (∀ t : ArticleTally, (a, t) ∉ (process_corpus tallyOf corpus).processed) ∧
    a ∉ agreement_articles (process_corpus tallyOf corpus) ∧
    (∀ b ∈ corpus, ¬ b.content.length < min_content_length →
      (b, tallyOf b) ∈ (process_corpus tallyOf corpus).processed) := by
  refine ⟨process_corpus_skips_short tallyOf a hshort corpus ha, ?_, ?_, ?_⟩
  · intro t hmem
    exact process_corpus_processed_long tallyOf corpus (a, t) hmem hshort
  · intro hmem
    rcases List.mem_map.mp hmem with ⟨p, hp, hpa⟩
    exact process_corpus_processed_long tallyOf corpus p hp (hpa ▸ hshort)
  · intro b hb hlong
    exact process_corpus_keeps_long tallyOf b hlong corpus hb

/-- Witness for C8: a two-article corpus in which the short article is
reported as skipped. -/
theorem short_article_skipped_witness :
    tiny_article ∈
      (process_corpus (fun _ => ([] : ArticleTally))
        [tiny_article, long_article]).skipped :=
  (short_article_skipped (fun _ => ([] : ArticleTally))
      [tiny_article, long_article] tiny_article
      (List.mem_cons_self _ _) (by decide)).1

/-- C9: the pipeline is deterministic — under any fixed classifier
function, analysing equal articles gives equal results, and demographic
resolution is a pure function of the input text: equal strings resolve to
equal target lists. -/
theorem pipeline_deterministic
    (classifier : String → Except Unit (List (String × ℚ)))
    (a₁ a₂ : Article) (t₁ t₂ : String) (ha : a₁ = a₂) (ht : t₁ = t₂) :
    analyze_article classifier a₁ = analyze_article classifier a₂ ∧
    detect_demographics t₁ = detect_demographics t₂ := by
  subst ha; subst ht; exact ⟨rfl, rfl⟩

/-- Witness for C9: determinism discharged on a concrete fixed classifier,
article and text. -/
theorem pipeline_deterministic_witness :
    analyze_article lexical_stub ⟨"a1", "first", "black women lead"⟩ =
      analyze_article lexical_stub ⟨"a1", "first", "black women lead"⟩ ∧
    detect_demographics "black women lead" =
      detect_demographics "black women lead" :=
  pipeline_deterministic lexical_stub _ _ _ _ rfl rfl

end SpamNews
